import Mathlib

/-!
Verification development for the SubSolarPoint program.

The program computes the subsolar point (the geographic latitude and
longitude directly beneath the sun) from a UTC instant, using closed-form
solar-position approximations, and formats the result in degrees and
minutes with hemisphere labels.

The embedding below models the numeric pipeline over the real numbers
(the source operates on double-precision floats; we use the ideal
real-arithmetic semantics of the same formulas) and the coordinate
formatter over the rationals with exact integer division semantics of the
source language: truncation toward zero for the conversion to integer,
floor division, and remainder carrying the sign of the divisor.
-/

namespace SubSolarPoint

/-- Real-number model of the modulo operation of the source language:
pyMod x m is x reduced modulo m, with the result carrying the sign of m.
For a positive modulus the result lies in the interval [0, m). -/
noncomputable def pyMod (x m : ℝ) : ℝ := x - m * ⌊x / m⌋

/-- Truncation toward zero, the semantics of converting a rational value
to an integer in the source language. -/
def pyInt (q : ℚ) : ℤ := if 0 ≤ q then ⌊q⌋ else ⌈q⌉

namespace Constants

def degrees_longitude_per_hour : ℝ := 15

def degrees_to_radians : ℝ := 0.01745329252

def earth_tilt_in_degrees : ℝ := 23.43715

def earth_tilt_in_radians : ℝ := 0.40905543478

def julian_date_for_jan_01_1970_at_0000_gmt : ℝ := 2440587.5

def noon_time : ℝ := 12

def number_of_days_in_a_century : ℝ := 36525

def number_of_hours_in_a_day : ℝ := 24

def number_of_minutes_in_an_hour : ℝ := 60

def number_of_seconds_in_a_day : ℝ := 86400

def radians_to_degrees : ℝ := 57.2957795131

def three_sixty_degrees : ℝ := 360

/-- Integer form of the seconds-per-hour constant, as used by the
coordinate formatter. -/
def number_of_seconds_in_an_hour : ℤ := 3600

/-- Integer form of the seconds-per-minute constant, as used by the
coordinate formatter. -/
def number_of_seconds_in_a_minute : ℤ := 60

end Constants

/-- One formatted coordinate block: the raw degree count, the minute and
second components, and the hemisphere label chosen by the sign test of
the source. -/
structure DMSPart where
  degrees : ℤ
  minutes : ℤ
  seconds : ℤ
  hemi : String
deriving DecidableEq

namespace CoordinateConversions

/-- Decomposition arithmetic of decimal_coordinates_to_deg_min_sec for a
single value: seconds count truncated toward zero, floor division for the
degrees, remainder (sign of the divisor) with an absolute value applied,
then floor division and remainder again for minutes and seconds; the
hemisphere label tests the sign of the degree component. -/
def decompose (v : ℚ) (posLabel negLabel : String) : DMSPart :=
  let s0 : ℤ := pyInt (v * (Constants.number_of_seconds_in_an_hour : ℚ))
  let degrees : ℤ := Int.fdiv s0 Constants.number_of_seconds_in_an_hour
  let s1 : ℤ := |Int.fmod s0 Constants.number_of_seconds_in_an_hour|
  let minutes : ℤ := Int.fdiv s1 Constants.number_of_seconds_in_a_minute
  let s2 : ℤ := Int.fmod s1 Constants.number_of_seconds_in_a_minute
  { degrees := degrees, minutes := minutes, seconds := s2,
    hemi := if 0 ≤ degrees then posLabel else negLabel }

/-- The pair of value triples substituted into the coordinates format
string: the absolute value of the degree component, the minute component
and the hemisphere label, for the latitude block and then the longitude
block. -/
def decimal_coordinates_to_deg_min_sec (latitude longitude : ℚ) :
    (ℤ × ℤ × String) × (ℤ × ℤ × String) :=
  let lat := decompose latitude ("North") ("South")
  let lon := decompose longitude ("East") ("West")
  ((|lat.degrees|, lat.minutes, lat.hemi), (|lon.degrees|, lon.minutes, lon.hemi))

end CoordinateConversions

namespace Astrocalculations

/-- Julian date of an instant given as a Unix timestamp in seconds. -/
noncomputable def jd_from_date (date : ℝ) : ℝ :=
  Constants.julian_date_for_jan_01_1970_at_0000_gmt +
    date / Constants.number_of_seconds_in_a_day

/-- Julian centuries elapsed since the J2000 epoch. -/
noncomputable def julian_century_since_jan_2000 (date : ℝ) : ℝ :=
  (jd_from_date date - 2451545) / Constants.number_of_days_in_a_century

/-- Orbital eccentricity of the Earth as a polynomial in the Julian
century. -/
def orbit_eccentricity_of_earth (t : ℝ) : ℝ :=
  0.016708634 - t * (0.000042037 + 0.0000001267 * t)

/-- Mean anomaly of the sun; transcribed exactly from the source, where
the last term is t * 0.0001537 (linear in t). -/
def mean_anomaly (t : ℝ) : ℝ :=
  357.52911 + t * 35999.05029 - t * 0.0001537

/-- Geometric mean longitude of the sun, reduced modulo 360 degrees. -/
noncomputable def geometric_mean_longitude_of_sun_at_current_time (t : ℝ) : ℝ :=
  pyMod (280.46646 + t * 36000.76983 + t * t * 0.0003032) Constants.three_sixty_degrees

/-- Equation of center of the sun: three sine harmonics of the mean
anomaly with coefficients polynomial in the Julian century. -/
noncomputable def sun_equation_of_center (t : ℝ) : ℝ :=
  let m := mean_anomaly t
  Real.sin (m * Constants.degrees_to_radians) * (1.914602 - t * (0.004817 + 0.000014 * t)) +
    Real.sin (2 * m * Constants.degrees_to_radians) * (0.019993 - 0.000101 * t) +
    Real.sin (3 * m * Constants.degrees_to_radians) * 0.000289

/-- The argument handed to the arcsine inside latitude_of_sun. -/
noncomputable def asin_argument (date : ℝ) : ℝ :=
  let jC := julian_century_since_jan_2000 date
  let geom_mean_longitude := geometric_mean_longitude_of_sun_at_current_time jC
  let sun_true_longitude := geom_mean_longitude + sun_equation_of_center jC
  Real.sin (sun_true_longitude * Constants.degrees_to_radians) *
    Real.sin Constants.earth_tilt_in_radians

/-- Latitude of the subsolar point in degrees: the arcsine of the product
of the sine of the true longitude (in radians) and the sine of the axial
tilt, converted back to degrees. -/
noncomputable def latitude_of_sun (date : ℝ) : ℝ :=
  Real.arcsin (asin_argument date) * Constants.radians_to_degrees

/-- Equation of time in minutes: the standard five-term approximation
from mean longitude, mean anomaly, eccentricity and the obliquity-derived
constant. -/
noncomputable def equation_of_time (date : ℝ) : ℝ :=
  let t := julian_century_since_jan_2000 date
  let mean_longitude_sun_radians :=
    geometric_mean_longitude_of_sun_at_current_time t * Constants.degrees_to_radians
  let mean_anomaly_sun_radians := mean_anomaly t * Constants.degrees_to_radians
  let eccentricity := orbit_eccentricity_of_earth t
  let obliquity : ℝ := 0.0430264916545165
  let term1 := obliquity * Real.sin (2 * mean_longitude_sun_radians)
  let term2 := 2 * eccentricity * Real.sin mean_anomaly_sun_radians
  let term3 := 4 * eccentricity * obliquity * Real.sin mean_anomaly_sun_radians *
    Real.cos (2 * mean_longitude_sun_radians)
  let term4 := 0.5 * obliquity * obliquity * Real.sin (4 * mean_longitude_sun_radians)
  let term5 := 1.25 * eccentricity * eccentricity * Real.sin (2 * mean_anomaly_sun_radians)
  4 * (term1 - term2 + term3 - term4 - term5) * Constants.radians_to_degrees

/-- Subsolar longitude: the equation of time corrects the separately read
wall-clock time of day (the localTime argument, hours since midnight UTC)
into true solar time, and the hour-angle delta from local noon is scaled
by 15 degrees per hour.  The source re-reads the wall clock here instead
of deriving the time of day from the date argument, so the clock reading
is an explicit second parameter of the embedding. -/
noncomputable def sub_solar_longitude_of_sun_at_current_time (date localTime : ℝ) : ℝ :=
  let eOT := equation_of_time date
  let gmt := pyMod (localTime - eOT / Constants.number_of_minutes_in_an_hour)
    Constants.number_of_hours_in_a_day
  let noon_hour_delta := pyMod (Constants.noon_time - gmt) Constants.number_of_hours_in_a_day
  noon_hour_delta * Constants.degrees_longitude_per_hour

/-- The pair returned by get_sub_solar_coordinates: latitude from the
captured instant, longitude from that instant and the re-read wall
clock. -/
noncomputable def get_sub_solar_coordinates (now localTime : ℝ) : ℝ × ℝ :=
  (latitude_of_sun now, sub_solar_longitude_of_sun_at_current_time now localTime)

end Astrocalculations

/-- The geometric mean longitude as the specification words it: the
quadratic polynomial reduced modulo 360, normalized into [0, 360). -/
noncomputable def spec_geometric_mean_longitude (t : ℝ) : ℝ :=
  (280.46646 + 36000.76983 * t + 0.0003032 * t ^ 2) -
    360 * ⌊(280.46646 + 36000.76983 * t + 0.0003032 * t ^ 2) / 360⌋

section CoordinateLemmas

open CoordinateConversions

lemma pyInt_nonneg_iff (q : ℚ) : 0 ≤ pyInt q ↔ -1 < q := by
  unfold pyInt
  split
  · rename_i h
    simp only [Int.floor_nonneg]
    constructor
    · intro _; linarith
    · intro _; exact h
  · rename_i h
    have h1 : 0 ≤ ⌈q⌉ ↔ -1 < ⌈q⌉ := by omega
    have h2 : (-1 : ℤ) < ⌈q⌉ ↔ ((-1 : ℤ) : ℚ) < q := Int.lt_ceil
    rw [h1, h2]
    norm_num

lemma pyInt_of_nonneg {q : ℚ} (h : 0 ≤ q) : pyInt q = ⌊q⌋ := if_pos h

lemma fdiv_3600_nonneg_iff (a : ℤ) : 0 ≤ Int.fdiv a 3600 ↔ 0 ≤ a := by
  rw [Int.fdiv_eq_ediv _ (by norm_num)]
  omega

lemma decompose_degrees (v : ℚ) (p n : String) :
    (decompose v p n).degrees =
      Int.fdiv (pyInt (v * 3600)) 3600 := by
  unfold decompose
  norm_num [Constants.number_of_seconds_in_an_hour]

lemma decompose_hemi (v : ℚ) (p n : String) :
    (decompose v p n).hemi =
      if 0 ≤ Int.fdiv (pyInt (v * 3600)) 3600 then p else n := by
  unfold decompose
  norm_num [Constants.number_of_seconds_in_an_hour]

lemma decompose_minutes (v : ℚ) (p n : String) :
    (decompose v p n).minutes =
      Int.fdiv |Int.fmod (pyInt (v * 3600)) 3600| 60 := by
  unfold decompose
  norm_num [Constants.number_of_seconds_in_an_hour, Constants.number_of_seconds_in_a_minute]

lemma decompose_minutes_bounds (v : ℚ) (p n : String) :
    0 ≤ (decompose v p n).minutes ∧ (decompose v p n).minutes ≤ 59 := by
  rw [decompose_minutes]
  set s0 := pyInt (v * 3600) with hs0
  have h1 : Int.fmod s0 3600 = s0 % 3600 := Int.fmod_eq_emod _ (by norm_num)
  have h2 : 0 ≤ s0 % 3600 := Int.emod_nonneg _ (by norm_num)
  have h3 : |Int.fmod s0 3600| = s0 % 3600 := by rw [h1, abs_of_nonneg h2]
  rw [h3, Int.fdiv_eq_ediv _ (by norm_num)]
  omega

end CoordinateLemmas



section PyModLemmas

lemma pyMod_eq_fract (x : ℝ) {m : ℝ} (hm : m ≠ 0) :
    pyMod x m = m * Int.fract (x / m) := by
  unfold pyMod Int.fract
  field_simp

lemma pyMod_nonneg (x : ℝ) {m : ℝ} (hm : 0 < m) : 0 ≤ pyMod x m := by
  rw [pyMod_eq_fract x (ne_of_gt hm)]
  exact mul_nonneg (le_of_lt hm) (Int.fract_nonneg _)

lemma pyMod_lt (x : ℝ) {m : ℝ} (hm : 0 < m) : pyMod x m < m := by
  rw [pyMod_eq_fract x (ne_of_gt hm)]
  have h := mul_lt_mul_of_pos_left (Int.fract_lt_one (x / m)) hm
  linarith

lemma pyMod_eq_imp_sub_int_mul {x y m : ℝ} (h : pyMod x m = pyMod y m) :
    ∃ k : ℤ, x - y = m * k := by
  refine ⟨⌊x / m⌋ - ⌊y / m⌋, ?_⟩
  unfold pyMod at h
  push_cast
  linarith

lemma pyMod_add_int_mul (x : ℝ) {m : ℝ} (hm : m ≠ 0) (k : ℤ) :
    pyMod (x + m * k) m = pyMod x m := by
  unfold pyMod
  have h1 : (x + m * k) / m = x / m + k := by
    field_simp
    ring
  rw [h1, Int.floor_add_int]
  push_cast
  ring

end PyModLemmas

/-- Claim C1 (code divergence at t = 2): the source computes the mean
anomaly with a final term linear in t (t * 0.0001537), not the quadratic
term 0.0001537 * t^2 of the specification formula, and at t = 2 the two
differ. -/
theorem mean_anomaly_linear_term_divergence :
    Astrocalculations.mean_anomaly 2 = 357.52911 + 35999.05029 * 2 - 0.0001537 * 2 ∧
    Astrocalculations.mean_anomaly 2 ≠ 357.52911 + 35999.05029 * 2 - 0.0001537 * 2 ^ 2 := by
  unfold Astrocalculations.mean_anomaly
  norm_num

/-- Claim C5: the geometric mean longitude equals the specification
polynomial reduced modulo 360 and always lies in [0, 360). -/
theorem geometric_mean_longitude_normalized (t : ℝ) :
    Astrocalculations.geometric_mean_longitude_of_sun_at_current_time t =
      spec_geometric_mean_longitude t ∧
    0 ≤ Astrocalculations.geometric_mean_longitude_of_sun_at_current_time t ∧
    Astrocalculations.geometric_mean_longitude_of_sun_at_current_time t < 360 := by
  have harg : 280.46646 + t * 36000.76983 + t * t * 0.0003032 =
      280.46646 + 36000.76983 * t + 0.0003032 * t ^ 2 := by ring
  have h360 : Constants.three_sixty_degrees = (360 : ℝ) := rfl
  refine ⟨?_, ?_, ?_⟩
  · unfold Astrocalculations.geometric_mean_longitude_of_sun_at_current_time
      spec_geometric_mean_longitude pyMod
    rw [h360, harg]
  · unfold Astrocalculations.geometric_mean_longitude_of_sun_at_current_time
    rw [h360]
    exact pyMod_nonneg _ (by norm_num)
  · unfold Astrocalculations.geometric_mean_longitude_of_sun_at_current_time
    rw [h360]
    exact pyMod_lt _ (by norm_num)

lemma sub_solar_longitude_formula (date localTime : ℝ) :
    Astrocalculations.sub_solar_longitude_of_sun_at_current_time date localTime =
      pyMod (12 - pyMod (localTime - Astrocalculations.equation_of_time date / 60) 24) 24 * 15 := by
  unfold Astrocalculations.sub_solar_longitude_of_sun_at_current_time
  rfl

lemma sub_solar_longitude_eq_iff (d lt lt' : ℝ) :
    Astrocalculations.sub_solar_longitude_of_sun_at_current_time d lt =
      Astrocalculations.sub_solar_longitude_of_sun_at_current_time d lt' ↔
    ∃ k : ℤ, lt - lt' = 24 * k := by
  rw [sub_solar_longitude_formula, sub_solar_longitude_formula]
  set a := Astrocalculations.equation_of_time d / 60 with ha
  constructor
  · intro h
    have h15 : pyMod (12 - pyMod (lt - a) 24) 24 = pyMod (12 - pyMod (lt' - a) 24) 24 :=
      mul_right_cancel₀ (by norm_num : (15:ℝ) ≠ 0) h
    obtain ⟨k1, hk1⟩ := pyMod_eq_imp_sub_int_mul h15
    have e1 : pyMod (lt - a) 24 = (lt - a) - 24 * ⌊(lt - a)/24⌋ := rfl
    have e2 : pyMod (lt' - a) 24 = (lt' - a) - 24 * ⌊(lt' - a)/24⌋ := rfl
    refine ⟨-k1 - (⌊(lt' - a)/24⌋ - ⌊(lt - a)/24⌋), ?_⟩
    rw [e1, e2] at hk1
    push_cast
    linarith
  · rintro ⟨k, hk⟩
    have h1 : lt - a = (lt' - a) + 24 * k := by linarith
    rw [h1, pyMod_add_int_mul _ (by norm_num) k]

/-- Claim C2 (counterexample): the pair returned for one and the same
instant (here the Unix epoch, date 0) changes when the internally re-read
wall clock advances from hour 0 to hour 1, so the output is not a
function of the instant alone. -/
theorem subsolar_clock_dependence_counterexample :
    Astrocalculations.get_sub_solar_coordinates 0 0 ≠
      Astrocalculations.get_sub_solar_coordinates 0 1 := by
  intro h
  have h2 : Astrocalculations.sub_solar_longitude_of_sun_at_current_time 0 0 =
      Astrocalculations.sub_solar_longitude_of_sun_at_current_time 0 1 := congrArg Prod.snd h
  obtain ⟨k, hk⟩ := (sub_solar_longitude_eq_iff 0 0 1).mp h2
  have hk2 : (24 * k : ℤ) = -1 := by
    exact_mod_cast (by linarith : (24:ℝ) * k = -1)
  omega

/-- Claim C2 (amended): the computation is deterministic in the pair of
an instant and a wall-clock reading: the latitude depends on the instant
alone, while the longitude agrees across two computations for the same
instant exactly when the two internally read wall-clock times differ by a
whole number of 24-hour days.  Identical instants alone do not guarantee
identical results, because the longitude step re-reads the wall clock. -/
theorem subsolar_point_determinism (d lt lt' : ℝ) :
    (Astrocalculations.get_sub_solar_coordinates d lt).1 =
      (Astrocalculations.get_sub_solar_coordinates d lt').1 ∧
    ((Astrocalculations.get_sub_solar_coordinates d lt).2 =
      (Astrocalculations.get_sub_solar_coordinates d lt').2 ↔
      ∃ k : ℤ, lt - lt' = 24 * k) :=
  ⟨rfl, sub_solar_longitude_eq_iff d lt lt'⟩

/-- Claim C6: for every instant and every internally read wall-clock
time, the subsolar longitude is the hour-angle delta from noon,
(12 - gmt) mod 24 with gmt the clock time corrected by the equation of
time over 60 and reduced modulo 24, scaled by 15 degrees per hour, and it
always lies in [0, 360). -/
theorem sub_solar_longitude_range (date localTime : ℝ) :
    Astrocalculations.sub_solar_longitude_of_sun_at_current_time date localTime =
      pyMod (12 - pyMod (localTime - Astrocalculations.equation_of_time date / 60) 24) 24 * 15 ∧
    0 ≤ Astrocalculations.sub_solar_longitude_of_sun_at_current_time date localTime ∧
    Astrocalculations.sub_solar_longitude_of_sun_at_current_time date localTime < 360 := by
  have hdef := sub_solar_longitude_formula date localTime
  have h0 : 0 ≤ pyMod (12 - pyMod (localTime - Astrocalculations.equation_of_time date / 60) 24) 24 :=
    pyMod_nonneg _ (by norm_num)
  have h1 : pyMod (12 - pyMod (localTime - Astrocalculations.equation_of_time date / 60) 24) 24 < 24 :=
    pyMod_lt _ (by norm_num)
  refine ⟨hdef, ?_, ?_⟩
  · rw [hdef]
    linarith
  · rw [hdef]
    linarith

/-- Claim C4: the latitude of the subsolar point never exceeds the axial
tilt of 23.43715 degrees in absolute value, because it is the arcsine of
a product bounded by the sine of the tilt, converted to degrees. -/
theorem solar_latitude_bounded_by_tilt (date : ℝ) :
    |Astrocalculations.latitude_of_sun date| ≤ Constants.earth_tilt_in_degrees := by
  unfold Astrocalculations.latitude_of_sun
  set a := Astrocalculations.asin_argument date with ha
  have hT : Constants.earth_tilt_in_radians = (0.40905543478 : ℝ) := rfl
  have hC : Constants.radians_to_degrees = (57.2957795131 : ℝ) := rfl
  have hpi := Real.pi_gt_three
  have hsinT_nonneg : 0 ≤ Real.sin Constants.earth_tilt_in_radians := by
    apply Real.sin_nonneg_of_nonneg_of_le_pi
    · rw [hT]; norm_num
    · rw [hT]; linarith
  have harg : |a| ≤ Real.sin Constants.earth_tilt_in_radians := by
    rw [ha]
    unfold Astrocalculations.asin_argument
    rw [abs_mul]
    calc |Real.sin _| * |Real.sin Constants.earth_tilt_in_radians|
        ≤ 1 * |Real.sin Constants.earth_tilt_in_radians| := by
          apply mul_le_mul_of_nonneg_right (Real.abs_sin_le_one _) (abs_nonneg _)
      _ = Real.sin Constants.earth_tilt_in_radians := by
          rw [one_mul, abs_of_nonneg hsinT_nonneg]
  have hrange : -(Real.pi/2) ≤ Constants.earth_tilt_in_radians ∧
      Constants.earth_tilt_in_radians ≤ Real.pi/2 := by
    constructor <;> (rw [hT]; linarith)
  have hup : Real.arcsin a ≤ Constants.earth_tilt_in_radians := by
    have h1 : Real.arcsin a ≤ Real.arcsin (Real.sin Constants.earth_tilt_in_radians) :=
      Real.monotone_arcsin (le_of_abs_le harg)
    rwa [Real.arcsin_sin hrange.1 hrange.2] at h1
  have hlo : -Constants.earth_tilt_in_radians ≤ Real.arcsin a := by
    have h1 : Real.arcsin (-(Real.sin Constants.earth_tilt_in_radians)) ≤ Real.arcsin a :=
      Real.monotone_arcsin (neg_le_of_abs_le harg)
    rwa [← Real.sin_neg, Real.arcsin_sin (by linarith [hrange.2]) (by linarith [hrange.1])] at h1
  have habs : |Real.arcsin a| ≤ Constants.earth_tilt_in_radians := abs_le.mpr ⟨hlo, hup⟩
  have hCpos : (0:ℝ) < Constants.radians_to_degrees := by rw [hC]; norm_num
  calc |Real.arcsin a * Constants.radians_to_degrees|
      = |Real.arcsin a| * Constants.radians_to_degrees := by
        rw [abs_mul, abs_of_pos hCpos]
    _ ≤ Constants.earth_tilt_in_radians * Constants.radians_to_degrees :=
        mul_le_mul_of_nonneg_right habs (le_of_lt hCpos)
    _ ≤ Constants.earth_tilt_in_degrees := by
        rw [hT, hC]
        unfold Constants.earth_tilt_in_degrees
        norm_num

/-- Claim C8: the computational core is total: the argument passed to the
arcsine always lies in the closed interval [-1, 1] (so latitude_of_sun,
which is exactly the arcsine of that argument scaled to degrees, is
defined everywhere), and the three division constants of the pipeline are
non-zero. -/
theorem asin_argument_in_unit_interval (date : ℝ) :
    -1 ≤ Astrocalculations.asin_argument date ∧
    Astrocalculations.asin_argument date ≤ 1 ∧
    Astrocalculations.latitude_of_sun date =
      Real.arcsin (Astrocalculations.asin_argument date) * Constants.radians_to_degrees ∧
    Constants.number_of_seconds_in_a_day ≠ 0 ∧
    Constants.number_of_days_in_a_century ≠ 0 ∧
    Constants.number_of_minutes_in_an_hour ≠ 0 := by
  have habs : |Astrocalculations.asin_argument date| ≤ 1 := by
    unfold Astrocalculations.asin_argument
    rw [abs_mul]
    exact mul_le_one₀ (Real.abs_sin_le_one _) (abs_nonneg _) (Real.abs_sin_le_one _)
  obtain ⟨h1, h2⟩ := abs_le.mp habs
  refine ⟨h1, h2, rfl, ?_, ?_, ?_⟩
  · unfold Constants.number_of_seconds_in_a_day; norm_num
  · unfold Constants.number_of_days_in_a_century; norm_num
  · unfold Constants.number_of_minutes_in_an_hour; norm_num

open CoordinateConversions

/-- Claim C3 (counterexample): the degrees component is NOT always the
input truncated toward zero (at -1/2 the code yields -1 while truncation
toward zero yields 0), and the hemisphere label is NOT "South" for every
negative input (at -1/7200 the code yields "North" although the input is
negative). -/
theorem dms_trunc_hemisphere_counterexample :
    (decompose (-(1:ℚ)/2) ("North") ("South")).degrees ≠ pyInt (-(1:ℚ)/2) ∧
    (decompose (-(1:ℚ)/7200) ("North") ("South")).hemi = ("North") ∧
    ¬ (0 ≤ (-(1:ℚ)/7200)) := by
  have e1 : decompose (-(1:ℚ)/2) ("North") ("South") = ⟨-1, 30, 0, "South"⟩ := by
    unfold decompose pyInt
    norm_num [Constants.number_of_seconds_in_an_hour, Constants.number_of_seconds_in_a_minute]
    decide
  have e2 : decompose (-(1:ℚ)/7200) ("North") ("South") = ⟨0, 0, 0, "North"⟩ := by
    have h0 : pyInt (-(1:ℚ)/7200 * ((Constants.number_of_seconds_in_an_hour : ℤ) : ℚ)) = 0 := by
      norm_num [pyInt, Constants.number_of_seconds_in_an_hour]
    unfold decompose
    rw [h0]
    decide
  refine ⟨?_, ?_, by norm_num⟩
  · rw [e1]
    have hc : (⌈-((1:ℚ)/2)⌉ : ℤ) = 0 := by norm_num
    norm_num [pyInt, hc]
  · rw [e2]

/-- Claim C3 (amended): for non-negative inputs the degrees component is
the input truncated toward zero, and in general it is the floor division
by 3600 of the arc-second count truncated toward zero; the hemisphere
label is the positive one ("North"/"East") exactly when the input exceeds
-1/3600 (equivalently, when the truncated arc-second count is
non-negative), and the negative one ("South"/"West") exactly when the
input is at most -1/3600. -/
theorem dms_decompose_amended (v : ℚ) (p n : String) (hpn : p ≠ n) :
    (0 ≤ v → (decompose v p n).degrees = pyInt v) ∧
    ((decompose v p n).hemi = p ↔ -(1:ℚ)/3600 < v) ∧
    ((decompose v p n).hemi = n ↔ v ≤ -(1:ℚ)/3600) := by
  have hdeg := decompose_degrees v p n
  have hhemi := decompose_hemi v p n
  have hiff : 0 ≤ Int.fdiv (pyInt (v * 3600)) 3600 ↔ -(1:ℚ)/3600 < v := by
    rw [fdiv_3600_nonneg_iff, pyInt_nonneg_iff]
    constructor <;> intro hh <;> linarith
  refine ⟨?_, ?_, ?_⟩
  · intro hv
    rw [hdeg, pyInt_of_nonneg hv, pyInt_of_nonneg (mul_nonneg hv (by norm_num))]
    rw [Int.fdiv_eq_ediv _ (by norm_num)]
    have h1 : ((⌊v⌋ : ℚ)) ≤ v := Int.floor_le v
    have h2 : v < ⌊v⌋ + 1 := Int.lt_floor_add_one v
    have h3 : 3600 * ⌊v⌋ ≤ ⌊v * 3600⌋ := Int.le_floor.mpr (by push_cast; linarith)
    have h4 : ⌊v * 3600⌋ < 3600 * (⌊v⌋ + 1) := Int.floor_lt.mpr (by push_cast; linarith)
    omega
  · rw [hhemi]
    split
    · rename_i h
      exact iff_of_true rfl (hiff.mp h)
    · rename_i h
      refine iff_of_false (fun hc => hpn hc.symm) (fun hv => h (hiff.mpr hv))
  · rw [hhemi]
    split
    · rename_i h
      exact iff_of_false hpn (not_le.mpr (hiff.mp h))
    · rename_i h
      exact iff_of_true rfl (not_lt.mp (fun hc => h (hiff.mpr hc)))

/-- Witness for the amended claim C3, instantiated at latitude 40.5 with
the "North"/"South" labels. -/
theorem dms_decompose_amended_witness :
    (("North") ≠ ("South") : Prop) ∧
    ((0 ≤ (81:ℚ)/2 → (decompose ((81:ℚ)/2) ("North") ("South")).degrees = pyInt ((81:ℚ)/2)) ∧
    ((decompose ((81:ℚ)/2) ("North") ("South")).hemi = ("North") ↔ -(1:ℚ)/3600 < (81:ℚ)/2) ∧
    ((decompose ((81:ℚ)/2) ("North") ("South")).hemi = ("South") ↔ (81:ℚ)/2 ≤ -(1:ℚ)/3600)) :=
  ⟨by decide, dms_decompose_amended ((81:ℚ)/2) ("North") ("South") (by decide)⟩

/-- Claim C7: fed latitude 40.5 and longitude -74, the decomposition
arithmetic yields the tuples (40, 30, "North") for the latitude and
(-74, 0, "West") for the longitude. -/
theorem dms_example_40_5_neg74 :
    decompose ((81:ℚ)/2) ("North") ("South") = ⟨40, 30, 0, "North"⟩ ∧
    decompose ((-74:ℚ)) ("East") ("West") = ⟨-74, 0, 0, "West"⟩ := by
  constructor
  · unfold decompose pyInt
    norm_num [Constants.number_of_seconds_in_an_hour, Constants.number_of_seconds_in_a_minute]
    decide
  · unfold decompose pyInt
    norm_num [Constants.number_of_seconds_in_an_hour, Constants.number_of_seconds_in_a_minute]
    decide

/-- Claim C10: for every input, the minute components of the formatted
coordinates lie between 0 and 59, and the degree and minute values
substituted into the format string are non-negative (the degree value is
taken in absolute value, the sign being carried by the hemisphere
label). -/
theorem dms_minutes_range (latitude longitude : ℚ) :
    0 ≤ (decimal_coordinates_to_deg_min_sec latitude longitude).1.1 ∧
    0 ≤ (decimal_coordinates_to_deg_min_sec latitude longitude).1.2.1 ∧
    (decimal_coordinates_to_deg_min_sec latitude longitude).1.2.1 ≤ 59 ∧
    0 ≤ (decimal_coordinates_to_deg_min_sec latitude longitude).2.1 ∧
    0 ≤ (decimal_coordinates_to_deg_min_sec latitude longitude).2.2.1 ∧
    (decimal_coordinates_to_deg_min_sec latitude longitude).2.2.1 ≤ 59 := by
  have h1 := decompose_minutes_bounds latitude ("North") ("South")
  have h2 := decompose_minutes_bounds longitude ("East") ("West")
  unfold decimal_coordinates_to_deg_min_sec
  exact ⟨abs_nonneg _, h1.1, h1.2, abs_nonneg _, h2.1, h2.2⟩

end SubSolarPoint
